import Mathlib

/-!
Shallow embedding of the RAG pipeline and tool-calling orchestration of the
realestate_mappro backend, and proofs settling the frozen claims about it.

Embedded source files:
* `src/backend/file_processors.py` — `DocumentChunker.chunk_text`
* `src/backend/services/rag_service.py` — `RAGService.create_embeddings`,
  `RAGService.store_document_chunks`, `RAGService.search_documents`,
  `RAGService._cosine_similarity`
* `src/backend/services/claude_service.py` — `ClaudeService.chat`
* `src/backend/simple_backend.py` — the `chat` endpoint's tool loop

Python floats are idealised as exact numbers: vector components as `ℚ`,
cosine-similarity scores as `ℝ` (the square root in `np.linalg.norm` forces
`Real.sqrt`).  Python strings are `List Char` where character-level slicing
matters (the chunker) and `String` elsewhere.  Python's unbounded `while`
loops are embedded with explicit fuel, returning `none` when the fuel runs
out; a loop that returns `none` for every fuel value diverges.
-/

namespace Mappro

/-! ## Chunker: `DocumentChunker.chunk_text` (file_processors.py lines 264-305)

Python string primitives are modelled with Python's index semantics:
negative indices count from the end, out-of-range indices are clamped
(`pyNorm`), `str.rfind(sub, a, b)` returns the greatest match position or
`-1` (`pyRfind`), slicing is `pySlice`, and `str.strip()` is `pyStrip`. -/

/-- Normalise a Python slice index against a string of length `n`:
negative indices count from the end (clamped below at 0), positive ones are
clamped above at `n`. -/
def pyNorm (n : ℕ) (i : ℤ) : ℕ :=
  if i < 0 then (max 0 ((n : ℤ) + i)).toNat else min i.toNat n

/-- Python slice `s[a:b]`. -/
def pySlice (s : List Char) (a b : ℤ) : List Char :=
  ((s.take (pyNorm s.length b)).drop (pyNorm s.length a))

/-- Does `sub` occur in `s` starting at position `i`? -/
def matchAt (s sub : List Char) (i : ℕ) : Bool :=
  decide (((s.drop i).take sub.length) = sub)

/-- Python `s.rfind(sub, a, b)`: greatest `i` with `a' ≤ i`,
`i + sub.length ≤ b'` and `sub` matching at `i` (indices normalised as in
slicing); `-1` if there is none. -/
def pyRfind (s sub : List Char) (a b : ℤ) : ℤ :=
  let lo := pyNorm s.length a
  let hi := pyNorm s.length b
  match ((List.range (s.length + 1)).filter
      (fun i => decide (lo ≤ i) && decide (i + sub.length ≤ hi) && matchAt s sub i)).getLast? with
  | some i => (i : ℤ)
  | none => -1

/-- Python whitespace for `str.strip()`. -/
def wsChar (c : Char) : Bool :=
  c = ' ' || c = '\t' || c = '\n' || c = '\r' || c = Char.ofNat 11 || c = Char.ofNat 12

/-- Python `s.strip()`. -/
def pyStrip (s : List Char) : List Char :=
  ((s.dropWhile wsChar).reverse.dropWhile wsChar).reverse

/-- One-for-one embedding of the `while start < len(text)` loop body of
`DocumentChunker.chunk_text` (file_processors.py lines 283-303), with fuel.
`none` means the fuel ran out with the loop still running. -/
def chunkLoop (text : List Char) (chunk_size overlap : ℤ) :
    ℕ → ℤ → List (List Char) → Option (List (List Char))
  | 0, _, _ => none
  | fuel + 1, start, chunks =>
    if start < (text.length : ℤ) then
      let e0 := start + chunk_size
      let e :=
        if e0 < (text.length : ℤ) then
          let sentence_end :=
            max (max (pyRfind text ['.', ' '] start e0) (pyRfind text ['!', ' '] start e0))
              (max (pyRfind text ['?', ' '] start e0) (pyRfind text ['\n', '\n'] start e0))
          if sentence_end > start then sentence_end + 1 else e0
        else e0
      let chunk := pyStrip (pySlice text start e)
      let chunks' := if chunk ≠ [] then chunks ++ [chunk] else chunks
      let start' := if e < (text.length : ℤ) then e - overlap else e
      chunkLoop text chunk_size overlap fuel start' chunks'
    else some chunks

/-- `DocumentChunker.chunk_text(text, chunk_size, overlap)`
(file_processors.py lines 264-305), fuel-indexed. -/
def chunk_text (text : List Char) (chunk_size overlap : ℤ) (fuel : ℕ) :
    Option (List (List Char)) :=
  if text = [] then some [] else chunkLoop text chunk_size overlap fuel 0 []

/-! ## RAG service data model (models/database.py, models/schemas.py)

`DocumentChunkModel` rows: the `id`/timestamps/metadata JSON columns are
claim-irrelevant and omitted; the nullable `embedding` JSON column is
`Option (List ℚ)` (`none` = SQL NULL, `some []` = empty JSON array). -/

/-- A row of the `document_chunks` table (models/database.py lines 35-47). -/
structure DBChunk where
  document_id : String
  document_name : String
  content : String
  page_number : Option ℕ
  chunk_index : ℕ
  embedding : Option (List ℚ)
  deriving DecidableEq

/-- Input dictionary for one chunk as passed to `store_document_chunks`:
`content`, optional `page_number`, optional `chunk_index` (the Python dict
`.get` defaults are applied at the use site, as in the source). -/
structure ChunkIn where
  content : String
  page_number : Option ℕ
  chunk_index : Option ℕ
  deriving DecidableEq

/-- `DocumentSearchResult` (models/schemas.py) as produced by
`search_documents`; the `metadata` field is omitted as claim-irrelevant. -/
structure DocumentSearchResult where
  document_name : String
  content : String
  page_number : Option ℕ
  relevance_score : ℝ

/-! ## `RAGService.create_embeddings` and `store_document_chunks`
(rag_service.py lines 19-65)

The OpenAI call is modelled by `provider : List String → Option (List (List ℚ))`:
`none` is the `except Exception` path (timeout, quota, malformed response),
`some embs` the successful response's `[item.embedding for item in
response.data]`.  `api_key` is the truthiness of `settings.openai_api_key`.
The database session is a `List DBChunk`; `db.add` + `db.commit` append. -/

/-- `RAGService.create_embeddings` (rag_service.py lines 19-33): with no API
key, or on any provider exception, it returns a 1536-dimensional all-zeros
placeholder per input text instead of raising. -/
def create_embeddings (api_key : Bool)
    (provider : List String → Option (List (List ℚ)))
    (texts : List String) : List (List ℚ) :=
  if !api_key then texts.map fun _ => List.replicate 1536 (0 : ℚ)
  else
    match provider texts with
    | some embs => embs
    | none => texts.map fun _ => List.replicate 1536 (0 : ℚ)

/-- `RAGService.store_document_chunks` (rag_service.py lines 35-65): embeds
all chunk contents, then appends one `DBChunk` row per `(chunk, embedding)`
pair of `enumerate(zip(chunks, embeddings))` to the table.  There is no
upsert, no dimension check and no error path. -/
def store_document_chunks (api_key : Bool)
    (provider : List String → Option (List (List ℚ)))
    (db : List DBChunk) (document_id document_name : String)
    (chunks : List ChunkIn) : List DBChunk :=
  let texts := chunks.map (·.content)
  let embeddings := create_embeddings api_key provider texts
  db ++ (chunks.zip embeddings).enum.map fun p =>
    { document_id := document_id
      document_name := document_name
      content := p.2.1.content
      page_number := p.2.1.page_number
      chunk_index := p.2.1.chunk_index.getD p.1
      embedding := some p.2.2 }

/-- Number of rows of `db` whose `(document_id, chunk_index)` equals
`(d, i)` — the key the spec's upsert is meant to be idempotent on. -/
def countPair (db : List DBChunk) (d : String) (i : ℕ) : ℕ :=
  (db.filter fun r => r.document_id == d && r.chunk_index == i).length

/-! ## `RAGService.search_documents` and `_cosine_similarity`
(rag_service.py lines 67-140)

The query string is embedded before this code runs; per the claims the model
starts from the query vector (`query_embedding = create_embeddings([query])[0]`,
rag_service.py lines 75-76).  The SQLAlchemy filters of lines 84-88 are the
optional exact `document_id` match and `document_name.contains` substring
match. -/

/-- The optional `filters` dict of `search_documents`. -/
structure SearchFilters where
  document_id : Option String
  document_name : Option String

/-- Python substring test (SQLAlchemy `contains`, i.e. `sub in s`). -/
def containsSub (s sub : String) : Bool :=
  (List.range (s.toList.length + 1)).any fun i =>
    decide ((s.toList.drop i).take sub.toList.length = sub.toList)

/-- The SQLAlchemy filter chain of rag_service.py lines 83-88. -/
def applyFilters (f : SearchFilters) (db : List DBChunk) : List DBChunk :=
  let db1 := match f.document_id with
    | some d => db.filter fun c => c.document_id == d
    | none => db
  match f.document_name with
  | some nm => db1.filter fun c => containsSub c.document_name nm
  | none => db1

/-- Truthiness of `chunk.embedding` (rag_service.py line 95): a NULL or
empty-list embedding is falsy and the chunk is skipped before scoring. -/
def chunkHasEmbedding (c : DBChunk) : Bool :=
  match c.embedding with
  | some v => !v.isEmpty
  | none => false

/-- `np.dot` of two equal-length vectors, over ℚ cast to ℝ. -/
def dotList (v1 v2 : List ℚ) : ℝ :=
  (((v1.zip v2).map fun p => p.1 * p.2).sum : ℚ)

/-- `np.linalg.norm`: Euclidean norm, forcing `Real.sqrt`. -/
noncomputable def normList (v : List ℚ) : ℝ :=
  Real.sqrt ((v.map fun x => x * x).sum : ℚ)

/-- `RAGService._cosine_similarity` (rag_service.py lines 125-140): 0 for an
empty vector or a zero-norm vector, otherwise `dot / (norm1 * norm2)`. -/
noncomputable def cosine_similarity (v1 v2 : List ℚ) : ℝ :=
  if v1.length = 0 ∨ v2.length = 0 then 0
  else if normList v1 = 0 ∨ normList v2 = 0 then 0
  else dotList v1 v2 / (normList v1 * normList v2)

/-- The comparison underlying `results.sort(key=lambda x: x["score"],
reverse=True)`: Python's sort is stable, so it is the stable merge sort by
descending score. -/
noncomputable def scoreDescLe (a b : DBChunk × ℝ) : Bool :=
  decide (b.2 ≤ a.2)

/-- `RAGService.search_documents` from the query vector on
(rag_service.py lines 78-120): filter, drop chunks with falsy embeddings,
score each remaining chunk against the query vector, stable-sort by
descending score, truncate to `max_results`, and package the results. -/
noncomputable def search_documents (query_embedding : List ℚ) (max_results : ℕ)
    (filters : SearchFilters) (db : List DBChunk) : List DocumentSearchResult :=
  let chunks := applyFilters filters db
  let results := (chunks.filter chunkHasEmbedding).map fun c =>
    (c, cosine_similarity query_embedding (c.embedding.getD []))
  let sorted := results.mergeSort scoreDescLe
  (sorted.take max_results).map fun p =>
    { document_name := p.1.document_name
      content := p.1.content
      page_number := p.1.page_number
      relevance_score := p.2 }

/-! ## Conversation orchestrators
(`ClaudeService.chat`, claude_service.py lines 72-169, and the `chat`
endpoint of simple_backend.py lines 941-1010)

The Anthropic client is an oracle `List Message → Response`.  Tool inputs
(model-produced JSON dicts) and serialised tool results (`json.dumps` /
`str`) are opaque `String`s; `ToolResult.payload` is the serialisation of
the dict returned by the tool executor, and `ToolResult.searchResults`
models the optional `"results"` key (document name and page number of each
hit) that `chat` reads for citations.  `geojsonFeatures` models the
optional `"geojson"["features"]` list read by the simple_backend loop. -/

/-- A content block of a model response: a `tool_use` block (id, name,
input) or a `text` block. -/
inductive ContentBlock where
  | toolUse (id name input : String)
  | text (s : String)
  deriving DecidableEq

/-- A message of the conversation transcript sent to the model. -/
inductive Message where
  | user (content : String)
  | assistant (content : List ContentBlock)
  | toolResults (results : List (String × String))
  deriving DecidableEq

/-- A model response: `stop_reason` and content blocks. -/
structure Response where
  stop_reason : String
  content : List ContentBlock
  deriving DecidableEq

/-- Result of `_execute_tool` / `execute_tool`: `payload` is its
serialisation, `searchResults` the optional `"results"` list
(document name, page number), `geojsonFeatures` the optional
`"geojson"["features"]` list (features as opaque strings). -/
structure ToolResult where
  payload : String
  searchResults : Option (List (String × Option ℕ))
  geojsonFeatures : Option (List String)
  deriving DecidableEq

/-- The `tool_use` blocks of a response's content, in order
(claude_service.py line 110). -/
def extractToolUses (content : List ContentBlock) : List (String × String × String) :=
  content.filterMap fun b =>
    match b with
    | .toolUse id name input => some (id, name, input)
    | .text _ => none

/-- Citation string for one search hit (claude_service.py lines 127-129):
the page suffix is added only when `page_number` is truthy, so page 0 gets
no suffix. -/
def sourceOf (hit : String × Option ℕ) : String :=
  match hit.2 with
  | some p => if p = 0 then hit.1 else hit.1 ++ " (page " ++ toString p ++ ")"
  | none => hit.1

/-- Sources contributed by one executed tool call
(claude_service.py lines 124-130): only `search_documents` results count. -/
def sourcesOf (name : String) (r : ToolResult) : List String :=
  if name = "search_documents" then
    match r.searchResults with
    | some hits => hits.map sourceOf
    | none => []
  else []

/-- The synthetic `tool_result` user-message content built at
claude_service.py lines 134-144.  The list comprehension pairs every
requested call id with `json.dumps(tool_result)` where `tool_result` is the
variable left over from the preceding `for` loop — i.e. the result of the
LAST executed call — so every block carries the last call's payload. -/
def toolFeedback (execTool : String → String → ToolResult)
    (tubs : List (String × String × String)) : List (String × String) :=
  match tubs.getLast? with
  | none => []
  | some lastTub =>
    tubs.map fun t => (t.1, (execTool lastTub.2.1 lastTub.2.2).payload)

/-- The text blocks of a response (claude_service.py line 157:
`hasattr(block, "text")`). -/
def textBlocks (content : List ContentBlock) : List String :=
  content.filterMap fun b =>
    match b with
    | .text s => some s
    | .toolUse _ _ _ => none

/-- The final return value of `ClaudeService.chat`
(claude_service.py lines 160-169); the deduplication of `list(set(sources))`
is modelled order-preservingly by `eraseDups`. -/
structure ChatOutcome where
  reply : String
  sources : List String
  stop_reason : String
  tool_calls : ℕ
  tools_used : List String
  deriving DecidableEq

/-- The `while response.stop_reason == "tool_use"` loop of
`ClaudeService.chat` (claude_service.py lines 108-154), with fuel: `none`
means the fuel ran out with the model still requesting tools.  The source
loop has no round-trip cap of its own. -/
def chatLoop (oracle : List Message → Response)
    (execTool : String → String → ToolResult) :
    ℕ → List Message → Response → List String → List (String × String × ToolResult) →
    Option ChatOutcome
  | 0, _, _, _, _ => none
  | fuel + 1, messages, response, sources, toolRecords =>
    if response.stop_reason = "tool_use" then
      let tubs := extractToolUses response.content
      let newRecords := tubs.map fun t => (t.2.1, t.2.2, execTool t.2.1 t.2.2)
      let newSources := (tubs.map fun t => sourcesOf t.2.1 (execTool t.2.1 t.2.2)).flatten
      let messages' := messages ++
        [Message.assistant response.content, Message.toolResults (toolFeedback execTool tubs)]
      chatLoop oracle execTool fuel messages' (oracle messages')
        (sources ++ newSources) (toolRecords ++ newRecords)
    else
      some { reply := String.intercalate "\n" (textBlocks response.content)
             sources := sources.eraseDups
             stop_reason := response.stop_reason
             tool_calls := toolRecords.length
             tools_used := toolRecords.map (·.1) }

/-- `ClaudeService.chat` (claude_service.py lines 72-169): append the user
message to the history, make the initial model call, then run the tool-use
loop. -/
def chat (oracle : List Message → Response)
    (execTool : String → String → ToolResult) (fuel : ℕ)
    (history : List Message) (message : String) : Option ChatOutcome :=
  let messages := history ++ [Message.user message]
  chatLoop oracle execTool fuel messages (oracle messages) [] []

/-- A model oracle that requests a tool on every round — the runaway model
of the spec's loop-bound scenario. -/
def alwaysToolOracle : List Message → Response :=
  fun _ => { stop_reason := "tool_use"
             content := [ContentBlock.toolUse "t1" "search_documents" ""] }

/-- The `while response.stop_reason == "tool_use"` loop of the
simple_backend `chat` endpoint (simple_backend.py lines 941-988), with
fuel.  Each iteration takes only the FIRST `tool_use` block
(`next(...)`), executes it, and rebuilds the transcript from scratch with a
single tool-result block; `none` means the fuel ran out looping.
It accumulates `tool_calls` records and the `geojson` features of each
result. -/
def simpleChatLoop (oracle : List Message → Response)
    (execTool : String → String → ToolResult) (userMessage : String) :
    ℕ → Response → List (String × String × ToolResult) → List String →
    Option (String × List (String × String × ToolResult) × List String)
  | 0, _, _, _ => none
  | fuel + 1, response, toolCalls, features =>
    if response.stop_reason = "tool_use" then
      match (extractToolUses response.content).head? with
      | none =>
        some ((textBlocks response.content).headD
            "I apologize, but I couldn\x27t generate a response.",
          toolCalls, features)
      | some tu =>
        let result := execTool tu.2.1 tu.2.2
        let toolCalls' := toolCalls ++ [(tu.2.1, tu.2.2, result)]
        let features' := features ++ (result.geojsonFeatures.getD [])
        let messages' := [Message.user userMessage,
          Message.assistant response.content,
          Message.toolResults [(tu.1, result.payload)]]
        simpleChatLoop oracle execTool userMessage fuel (oracle messages') toolCalls' features'
    else
      some ((textBlocks response.content).headD
          "I apologize, but I couldn\x27t generate a response.",
        toolCalls, features)

/-- The simple_backend `chat` endpoint from the first model call through the
tool loop (simple_backend.py lines 923-995). -/
def simpleChat (oracle : List Message → Response)
    (execTool : String → String → ToolResult) (fuel : ℕ)
    (message : String) :
    Option (String × List (String × String × ToolResult) × List String) :=
  simpleChatLoop oracle execTool message fuel
    (oracle [Message.user message]) [] []

/-! ## Concrete scenario inputs used by counterexamples and witnesses -/

/-- A 16-character text whose only sentence terminator sits `overlap - 1`
characters past the cursor: with `chunk_size = 10`, `overlap = 5` the
sentence-boundary cut puts end-of-chunk at 5, so the next cursor is
`5 - 5 = 0` again. -/
def badChunkText : List Char := "aaaa. bbbbbbbbbb".toList

/-- No filters supplied (the `filters=None` default). -/
def noFilters : SearchFilters := { document_id := none, document_name := none }

/-- Chunk with index 5, stored first. -/
def chunkHi : DBChunk :=
  { document_id := "d", document_name := "docA", content := "A",
    page_number := none, chunk_index := 5, embedding := some [(1 : ℚ)] }

/-- Chunk with index 0, stored second. -/
def chunkLo : DBChunk :=
  { document_id := "d", document_name := "docB", content := "B",
    page_number := none, chunk_index := 0, embedding := some [(1 : ℚ)] }

/-- Executor giving distinct, recognisable results to the two tools. -/
def execTwoTools : String → String → ToolResult :=
  fun name _ =>
    if name = "t1" then
      { payload := "R1", searchResults := none, geojsonFeatures := none }
    else
      { payload := "R2", searchResults := none, geojsonFeatures := none }

/-- A model response requesting two tool calls in one turn. -/
def twoToolResponse : Response :=
  { stop_reason := "tool_use"
    content := [ContentBlock.toolUse "a" "t1" "", ContentBlock.toolUse "b" "t2" ""] }

/-- A final plain-text model response. -/
def endResponse : Response :=
  { stop_reason := "end_turn", content := [ContentBlock.text "done"] }

/-- Oracle that requests the two tools on the first round and then stops. -/
def twoThenDoneOracle : List Message → Response :=
  fun msgs => if msgs.length ≤ 1 then twoToolResponse else endResponse

/-! ## Theorems -/

/-! ### Claim C7 — chunker cursor / termination -/

theorem chunkLoop_badChunkText_step (chunks : List (List Char)) (n : ℕ) :
    chunkLoop badChunkText 10 5 (n + 1) 0 chunks
      = chunkLoop badChunkText 10 5 n 0 (chunks ++ ["aaaa.".toList]) := rfl

/-- Claim C7: the claim asserts that the cursor advance of
`DocumentChunker.chunk_text` is clamped to be strictly increasing, making
the chunker terminate on every input with `overlap < target_size`.  The
source has no clamp: on `"aaaa. bbbbbbbbbb"` with `chunk_size = 10`,
`overlap = 5` the cursor returns to 0 on every iteration, and the loop
never terminates — `chunk_text` runs out of any amount of fuel. -/
theorem chunk_text_cursor_stuck_diverges :
    ∀ fuel : ℕ, chunk_text badChunkText 10 5 fuel = none := by
  have h : ∀ (fuel : ℕ) (chunks : List (List Char)),
      chunkLoop badChunkText 10 5 fuel 0 chunks = none := by
    intro fuel
    induction fuel with
    | zero => intro chunks; rfl
    | succ n ih =>
      intro chunks
      rw [chunkLoop_badChunkText_step]
      exact ih _
  intro fuel
  show chunkLoop badChunkText 10 5 fuel 0 [] = none
  exact h fuel []

/-! ### Claim C9 — chunker edge cases -/

theorem pySlice_of_short (text : List Char) (csize : ℤ)
    (hlen : (text.length : ℤ) < csize) : pySlice text 0 csize = text := by
  have h0 : pyNorm text.length 0 = 0 := by simp [pyNorm]
  have hε : ¬ (csize < 0) := by omega
  have hn : pyNorm text.length csize = text.length := by
    have : text.length < csize.toNat + 1 := by
      have := Int.lt_toNat.mpr hlen
      omega
    simp only [pyNorm, if_neg hε]
    omega
  simp [pySlice, h0, hn]

/-- Claim C9 (amended): `chunk_text` returns the empty sequence for empty
input; for non-empty input shorter than `chunk_size` it emits exactly one
chunk — the stripped text — unless the text strips to nothing (whitespace
only), in which case it returns the empty sequence. -/
theorem chunk_text_empty_and_short :
    (∀ (csize overlap : ℤ) (fuel : ℕ), chunk_text [] csize overlap fuel = some []) ∧
    (∀ (text : List Char) (csize overlap : ℤ) (fuel : ℕ),
      2 ≤ fuel → text ≠ [] → (text.length : ℤ) < csize →
      chunk_text text csize overlap fuel =
        if pyStrip text = [] then some [] else some [pyStrip text]) := by
  constructor
  · intro csize overlap fuel
    simp [chunk_text]
  · intro text csize overlap fuel hfuel hne hlen
    obtain ⟨k, rfl⟩ := Nat.exists_eq_add_of_le hfuel
    have hpos : (0 : ℤ) < (text.length : ℤ) := by
      have := List.length_pos.mpr hne
      omega
    have hnotlt : ¬ ((0 : ℤ) + csize < (text.length : ℤ)) := by omega
    have hslice : pySlice text 0 (0 + csize) = text := by
      rw [zero_add]; exact pySlice_of_short text csize hlen
    rw [chunk_text, if_neg hne, show 2 + k = (k + 1) + 1 from by omega]
    simp only [chunkLoop, if_pos hpos, if_neg hnotlt, hslice]
    by_cases hstrip : pyStrip text = []
    · simp [hstrip]
    · simp [hstrip]

/-- Witness for the amended claim C9 at a concrete short input. -/
theorem chunk_text_empty_and_short_witness :
    chunk_text "hi".toList 10 3 2 = some ["hi".toList] := by
  have h := chunk_text_empty_and_short.2 "hi".toList 10 3 2
    (by decide) (by decide) (by decide)
  rw [h]
  decide

/-- Counterexample for claim C9 as stated: the single-space text is
non-empty and shorter than `target_size = 1000`, yet `chunk_text` returns
the empty sequence (zero chunks, not exactly one), because the chunk strips
to nothing and is dropped. -/
theorem chunk_text_whitespace_counterexample :
    (" ".toList ≠ [] ∧ ((" ".toList : List Char).length : ℤ) < 1000) ∧
    chunk_text " ".toList 1000 200 2 = some [] := by
  decide

/-! ### Claim C2 — embedding failure handling -/

/-- Counterexample for claim C2 as stated: after a provider failure (the
provider raises, modelled by `none`), `create_embeddings` does not raise a
typed error — it silently substitutes 1536-dimensional all-zeros
placeholders — and `store_document_chunks` persists a chunk row whose
embedding is exactly that all-zeros placeholder. -/
theorem store_zero_placeholder_counterexample :
    store_document_chunks true (fun _ => none) [] "d1" "n1"
        [{ content := "hello", page_number := none, chunk_index := none }] =
      [{ document_id := "d1", document_name := "n1", content := "hello",
         page_number := none, chunk_index := 0,
         embedding := some (List.replicate 1536 (0 : ℚ)) }] := rfl

/-- Claim C2 (amended): on provider failure `create_embeddings` returns a
1536-dimensional all-zeros placeholder per input text instead of raising a
typed `EmbeddingUnavailable` error, and `store_document_chunks` then
persists one chunk row per chunk whose embedding is that placeholder. -/
theorem create_embeddings_failure_placeholder :
    (∀ texts : List String,
      create_embeddings true (fun _ => none) texts
        = texts.map fun _ => List.replicate 1536 (0 : ℚ)) ∧
    (∀ (db : List DBChunk) (d n content : String) (pn : Option ℕ) (ci : Option ℕ),
      store_document_chunks true (fun _ => none) db d n
          [{ content := content, page_number := pn, chunk_index := ci }]
        = db ++ [{ document_id := d, document_name := n, content := content,
                   page_number := pn, chunk_index := ci.getD 0,
                   embedding := some (List.replicate 1536 (0 : ℚ)) }]) := by
  exact ⟨fun texts => rfl, fun db d n content pn ci => rfl⟩

/-! ### Claim C3 — upsert idempotence -/

/-- Counterexample for claim C3 as stated: writing the same
`(document_id, chunk_index) = ("d", 0)` pair twice leaves TWO rows for the
pair, not one — `store_document_chunks` is a plain insert, and
`document_chunks` has no unique constraint on the pair. -/
theorem store_upsert_counterexample :
    countPair
        (store_document_chunks false (fun _ => none)
          (store_document_chunks false (fun _ => none) [] "d" "n"
            [{ content := "x", page_number := none, chunk_index := some 0 }])
          "d" "n"
          [{ content := "x", page_number := none, chunk_index := some 0 }])
        "d" 0 = 2 ∧ (2 : ℕ) ≠ 1 := by
  constructor
  · rfl
  · decide

/-- Claim C3 (amended): the index write is a plain append, so writing the
same `(document_id, chunk_index)` pair twice adds two rows for that pair on
top of whatever the database already held. -/
theorem store_append_duplicates
    (provider : List String → Option (List (List ℚ)))
    (db : List DBChunk) (d n content : String) (pn : Option ℕ) (i : ℕ) :
    countPair
        (store_document_chunks false provider
          (store_document_chunks false provider db d n
            [{ content := content, page_number := pn, chunk_index := some i }])
          d n
          [{ content := content, page_number := pn, chunk_index := some i }])
        d i = countPair db d i + 2 := by
  have hrow : ∀ db' : List DBChunk,
      store_document_chunks false provider db' d n
          [{ content := content, page_number := pn, chunk_index := some i }]
        = db' ++ [{ document_id := d, document_name := n, content := content,
                    page_number := pn, chunk_index := i,
                    embedding := some (List.replicate 1536 (0 : ℚ)) }] :=
    fun db' => rfl
  rw [hrow, hrow, List.append_assoc]
  simp only [countPair]
  generalize List.replicate 1536 (0 : ℚ) = v
  simp [List.filter_append]

/-! ### Claim C6 — dimension check -/

/-- Counterexample for claim C6 as stated: the index already holds a
1536-dimensional vector, the incoming chunk's embedding is 2-dimensional,
and `store_document_chunks` stores it anyway — there is no dimension check
and no `DimensionMismatch` error path. -/
theorem store_dimension_mismatch_counterexample :
    store_document_chunks true (fun _ => some [[(1 : ℚ), 2]])
        [{ document_id := "d0", document_name := "n0", content := "c0",
           page_number := none, chunk_index := 0,
           embedding := some (List.replicate 1536 (0 : ℚ)) }]
        "d2" "n2"
        [{ content := "c", page_number := none, chunk_index := some 0 }] =
      [{ document_id := "d0", document_name := "n0", content := "c0",
         page_number := none, chunk_index := 0,
         embedding := some (List.replicate 1536 (0 : ℚ)) },
       { document_id := "d2", document_name := "n2", content := "c",
         page_number := none, chunk_index := 0,
         embedding := some [(1 : ℚ), 2] }] := rfl

/-- Claim C6 (amended): `store_document_chunks` performs no dimensionality
check at all — a vector of any dimension `v` returned by the provider is
appended to the index unconditionally, whatever the dimensions of the rows
already stored. -/
theorem store_no_dimension_check
    (db : List DBChunk) (d n content : String) (pn : Option ℕ) (i : ℕ)
    (v : List ℚ) :
    store_document_chunks true (fun _ => some [v]) db d n
        [{ content := content, page_number := pn, chunk_index := some i }]
      = db ++ [{ document_id := d, document_name := n, content := content,
                 page_number := pn, chunk_index := i,
                 embedding := some v }] := rfl

/-! ### Search helper lemmas -/

theorem applyFilters_nil (f : SearchFilters) : applyFilters f [] = [] := by
  obtain ⟨fid, fname⟩ := f
  cases fid <;> cases fname <;> simp [applyFilters]

theorem applyFilters_filter_comm (f : SearchFilters) (p : DBChunk → Bool)
    (db : List DBChunk) :
    applyFilters f (db.filter p) = (applyFilters f db).filter p := by
  obtain ⟨fid, fname⟩ := f
  cases fid <;> cases fname <;>
    simp [applyFilters, List.filter_filter, Bool.and_comm, Bool.and_assoc]

/-! ### Claim C8 — result count -/

/-- Claim C8: `search_documents` returns `min k c` results, where `c` is
the size of the filtered candidate set (chunks surviving the filters with a
truthy embedding) — hence never more than `k`, fewer than `k` exactly when
the candidate set is smaller than `k`, and the empty sequence (not an
error) when no chunks exist. -/
theorem search_documents_respects_k :
    (∀ (q : List ℚ) (k : ℕ) (f : SearchFilters) (db : List DBChunk),
      (search_documents q k f db).length
        = min k ((applyFilters f db).filter chunkHasEmbedding).length) ∧
    (∀ (q : List ℚ) (k : ℕ) (f : SearchFilters),
      search_documents q k f [] = []) := by
  constructor
  · intro q k f db
    simp [search_documents, List.length_take, List.length_mergeSort]
  · intro q k f
    simp [search_documents, applyFilters_nil, List.mergeSort_nil]

/-! ### Claim C10 — chunks without embeddings are excluded -/

/-- Claim C10: chunks whose embedding is missing (NULL) or empty are
excluded from the candidate set before scoring — the search output on any
store equals the output on the store restricted to chunks with a truthy
embedding, and a store consisting only of embedding-less chunks yields the
empty result (no error, nothing scored or returned). -/
theorem search_documents_skips_missing_embeddings :
    (∀ (q : List ℚ) (k : ℕ) (f : SearchFilters) (db : List DBChunk),
      search_documents q k f db
        = search_documents q k f (db.filter chunkHasEmbedding)) ∧
    (∀ (q : List ℚ) (k : ℕ) (f : SearchFilters) (db : List DBChunk),
      search_documents q k f (db.filter fun c => !chunkHasEmbedding c) = []) := by
  constructor
  · intro q k f db
    simp only [search_documents, applyFilters_filter_comm,
      List.filter_filter, Bool.and_self]
  · intro q k f db
    simp only [search_documents, applyFilters_filter_comm, List.filter_filter]
    have h : (fun c => chunkHasEmbedding c && !chunkHasEmbedding c)
        = fun _ : DBChunk => false := by
      funext c
      exact Bool.and_not_self _
    simp [h, List.mergeSort_nil]

/-! ### Claim C5 — ranking order and tie-breaking -/

theorem search_pair_eval (a b : DBChunk)
    (ha : a.embedding = some [(1 : ℚ)]) (hb : b.embedding = some [(1 : ℚ)]) :
    (search_documents [(1 : ℚ)] 5 noFilters [a, b]).map (fun r => r.content)
      = [a.content, b.content] := by
  have hhA : chunkHasEmbedding a = true := by simp [chunkHasEmbedding, ha]
  have hhB : chunkHasEmbedding b = true := by simp [chunkHasEmbedding, hb]
  have hfil : applyFilters noFilters [a, b] = [a, b] := rfl
  simp only [search_documents, hfil]
  have hflt : List.filter chunkHasEmbedding [a, b] = [a, b] := by
    simp [hhA, hhB]
  rw [hflt]
  have hmap : [a, b].map
      (fun c => (c, cosine_similarity [(1 : ℚ)] (c.embedding.getD [])))
      = [(a, cosine_similarity [(1 : ℚ)] [(1 : ℚ)]),
         (b, cosine_similarity [(1 : ℚ)] [(1 : ℚ)])] := by
    simp [ha, hb]
  rw [hmap]
  have hms : [(a, cosine_similarity [(1 : ℚ)] [(1 : ℚ)]),
      (b, cosine_similarity [(1 : ℚ)] [(1 : ℚ)])].mergeSort scoreDescLe
      = [(a, cosine_similarity [(1 : ℚ)] [(1 : ℚ)]),
         (b, cosine_similarity [(1 : ℚ)] [(1 : ℚ)])] := by
    apply List.mergeSort_of_sorted
    simp [List.pairwise_cons, scoreDescLe]
  rw [hms]
  simp

/-- Counterexample for claim C5 as stated: two chunks with identical
embeddings (hence identical scores against the query) come back in storage
enumeration order, whichever that is — when the chunk with index 5 is
enumerated first it also sorts first, although the claim requires the
chunk with index 0 to sort first; reversing the storage order reverses the
output, so the ordering is not independent of enumeration order. -/
theorem search_tiebreak_counterexample :
    ((search_documents [(1 : ℚ)] 5 noFilters [chunkHi, chunkLo]).map
        (fun r => r.content) = ["A", "B"]) ∧
    ((search_documents [(1 : ℚ)] 5 noFilters [chunkLo, chunkHi]).map
        (fun r => r.content) = ["B", "A"]) ∧
    chunkLo.chunk_index < chunkHi.chunk_index ∧
    cosine_similarity [(1 : ℚ)] (chunkHi.embedding.getD [])
      = cosine_similarity [(1 : ℚ)] (chunkLo.embedding.getD []) := by
  refine ⟨search_pair_eval chunkHi chunkLo rfl rfl,
    search_pair_eval chunkLo chunkHi rfl rfl, by decide, rfl⟩

/-- Claim C5 (amended): `search_documents` results are sorted by descending
cosine similarity; chunks with identical score keep the storage enumeration
order of the candidates (Python's stable sort) — there is no chunk-index or
document-id tie-break, so the order of ties is exactly the enumeration
order. -/
theorem search_documents_sorted_desc (q : List ℚ) (k : ℕ) (f : SearchFilters)
    (db : List DBChunk) :
    List.Pairwise
      (fun a b : DocumentSearchResult => b.relevance_score ≤ a.relevance_score)
      (search_documents q k f db) := by
  have htrans : ∀ a b c : DBChunk × ℝ, scoreDescLe a b = true →
      scoreDescLe b c = true → scoreDescLe a c = true := by
    intro a b c hab hbc
    simp only [scoreDescLe, decide_eq_true_eq] at hab hbc ⊢
    exact le_trans hbc hab
  have htot : ∀ a b : DBChunk × ℝ, (scoreDescLe a b || scoreDescLe b a) = true := by
    intro a b
    simp only [scoreDescLe, Bool.or_eq_true, decide_eq_true_eq]
    exact le_total _ _
  simp only [search_documents]
  have hpw : List.Pairwise (fun a b : DBChunk × ℝ => scoreDescLe a b = true)
      (List.take k
        (((applyFilters f db).filter chunkHasEmbedding).map
          (fun c => (c, cosine_similarity q (c.embedding.getD []))) |>.mergeSort
            scoreDescLe)) :=
    List.Pairwise.sublist (List.take_sublist _ _)
      (List.sorted_mergeSort htrans htot _)
  exact hpw.map _ (fun a b hab => by simpa [scoreDescLe] using hab)

/-- Witness for the amended claim C5 at a concrete input. -/
theorem search_documents_sorted_desc_witness :
    List.Pairwise
      (fun a b : DocumentSearchResult => b.relevance_score ≤ a.relevance_score)
      (search_documents [(1 : ℚ)] 5 noFilters [chunkHi, chunkLo]) :=
  search_documents_sorted_desc [(1 : ℚ)] 5 noFilters [chunkHi, chunkLo]

/-! ### Claim C1 — tool-use loop bound -/

/-- Claim C1: the claim asserts a fixed cap on tool-use round-trips per
submitted message.  Both orchestrator loops in the source
(`ClaudeService.chat` and the simple_backend `chat` endpoint) are plain
`while response.stop_reason == "tool_use"` loops with no cap: against a
model that requests a tool on every round, they exhaust every fuel bound —
no constant bounds the number of model round-trips, and no best-effort
reply is ever produced. -/
theorem chat_loop_unbounded :
    (∀ (execTool : String → String → ToolResult) (fuel : ℕ)
        (history : List Message) (message : String),
      chat alwaysToolOracle execTool fuel history message = none) ∧
    (∀ (execTool : String → String → ToolResult) (fuel : ℕ) (message : String),
      simpleChat alwaysToolOracle execTool fuel message = none) := by
  constructor
  · intro execTool fuel
    have h : ∀ (n : ℕ) (msgs : List Message) (srcs : List String)
        (recs : List (String × String × ToolResult)),
        chatLoop alwaysToolOracle execTool n msgs (alwaysToolOracle msgs) srcs recs
          = none := by
      intro n
      induction n with
      | zero => intro msgs srcs recs; rfl
      | succ m ih => intro msgs srcs recs; exact ih _ _ _
    intro history message
    exact h fuel _ _ _
  · intro execTool fuel message
    have h : ∀ (n : ℕ) (msgs : List Message)
        (tc : List (String × String × ToolResult)) (fts : List String),
        simpleChatLoop alwaysToolOracle execTool message n
          (alwaysToolOracle msgs) tc fts = none := by
      intro n
      induction n with
      | zero => intro msgs tc fts; rfl
      | succ m ih => intro msgs tc fts; exact ih _ _ _
    exact h fuel _ _ _

/-! ### Claim C4 — tool-result correlation -/

/-- Claim C4: the claim asserts that each fed-back tool-result block carries
the result of its own call.  In `ClaudeService.chat` the feedback
comprehension reuses the stale `tool_result` variable of the preceding
`for` loop, so with two requested calls `t1 → "R1"`, `t2 → "R2"` BOTH
blocks carry `"R2"` — the block with id `"a"` carries the result of the
other call.  In the simple_backend loop only the FIRST requested call is
executed at all: the turn's recorded tool calls contain just `t1`, and the
`t2` request is dropped. -/
theorem tool_results_misattributed :
    toolFeedback execTwoTools (extractToolUses twoToolResponse.content)
        = [("a", "R2"), ("b", "R2")] ∧
    (execTwoTools "t1" "").payload ≠ (execTwoTools "t2" "").payload ∧
    simpleChat twoThenDoneOracle execTwoTools 5 "hi"
        = some ("done",
            [("t1", "",
              { payload := "R1", searchResults := none, geojsonFeatures := none })],
            []) := by
  refine ⟨rfl, by decide, rfl⟩

end Mappro
